import Mathlib

/-!
Verification of the email warm-up pipeline (scheduler, pool-coordinator
allocator, campaign expander, engagement executor) against its
natural-language specification.  The definitions below are a shallow
embedding of the TypeScript sources:

* `src/scheduler/index.ts` — the cron `scheduled` handler and the
  `PoolCoordinator` durable object (`selectAccounts`, `loadState`,
  `saveState`);
* `src/consumer/index.ts` — the campaign expander (`queue` handler);
* `src/engagement/index.ts` — the engagement executor (`queue` handler,
  `performEngagementAction`, `getHtmlContent`, `logEngagement`);
* `src/utils/gmail.ts` — `extractLinks` and `filterUnsubscribeLinks`.

External collaborators (D1 store, queue transport, Gmail HTTP API, crypto
utilities) are modelled as oracle inputs; the observable behaviour of a
handler is the list of side effects it performs plus its acknowledge/retry
decision.  Machine integers are modelled as `Nat`/`Int` (JS numbers holding
millisecond timestamps stay far below 2^53, so no overflow is reachable and
plain `Nat` arithmetic is faithful; the one JS-specific subtlety that does
matter, `!lastUsed` treating a stored `0` as absent, is modelled explicitly).
-/

/-- Status column of the `gmail_accounts` table (`'active' | 'needs_reauth' | 'disabled'`). -/
inductive AccountStatus
| active
| needs_reauth
| disabled
deriving DecidableEq

/-- Status column of the `campaigns` table (`'active' | 'paused' | 'completed'`). -/
inductive CampaignStatus
| active
| paused
| completed
deriving DecidableEq

/-- The four engagement action kinds; `open'` stands for the source's `'open'`
(a Lean keyword). -/
inductive ActionType
| open'
| click
| reply
| move_to_inbox
deriving DecidableEq

/-- Status column of `engagement_logs` rows. -/
inductive LogStatus
| success
| failed
deriving DecidableEq

/-- Row of the `campaigns` table together with the columns the scheduler reads. -/
structure Campaign where
  id : Nat
  sender_email : String
  pool_size : Nat
  status : CampaignStatus
deriving DecidableEq

/-- Campaign Channel message: `{ campaignId }` (src/types, used in scheduler line 17). -/
structure CampaignQueueMessage where
  campaignId : Nat
deriving DecidableEq

/-- Row of the `gmail_accounts` table.  `last_used_at` is a nullable ISO-8601
text column, modelled as `Option Nat` (ISO-8601 strings compare in the same
order as the instants they denote). -/
structure GmailAccount where
  id : Nat
  status : AccountStatus
  last_used_at : Option Nat
  oauth_credentials : String
deriving DecidableEq

/-- Engagement probability settings parsed from `campaigns.engagement_settings`. -/
structure EngagementSettings where
  open_rate : ℚ
  click_rate : ℚ
  reply_rate : ℚ
  move_to_inbox_rate : ℚ
deriving DecidableEq

/-- Engagement Channel message (src/types; consumer lines 67-72). -/
structure EngagementQueueMessage where
  campaignId : Nat
  gmailAccountId : Nat
  senderEmail : String
  actionType : ActionType
deriving DecidableEq

/- ## Scheduler (src/scheduler/index.ts lines 3-31) -/

/-- Embeds lines 9-19: `SELECT id, sender_email, pool_size FROM campaigns
WHERE status = 'active'`, then one `CampaignQueueMessage` per row, in row
order. -/
def activeCampaignMessages (db : List Campaign) : List CampaignQueueMessage :=
  (db.filter (fun c => decide (c.status = CampaignStatus.active))).map
    (fun c => { campaignId := c.id })

/-- Embeds the send loop of lines 16-23.  `sendFails i = true` means the
`await env.CAMPAIGN_QUEUE.send` for the `i`-th message throws; the loop then
aborts (the error propagates out of `scheduled`), leaving exactly the
previously sent messages published.  Returns the published messages and
whether the run completed. -/
def sendAllCampaigns : List CampaignQueueMessage → Nat → (Nat → Bool) → List CampaignQueueMessage × Bool
  | [], _, _ => ([], true)
  | m :: rest, i, sendFails =>
    if sendFails i then ([], false)
    else
      let r := sendAllCampaigns rest (i + 1) sendFails
      (m :: r.1, r.2)

/-- Embeds the `scheduled` handler: list active campaigns, publish one message
each.  The pair is (messages actually published, run succeeded). -/
def scheduled (db : List Campaign) (sendFails : Nat → Bool) : List CampaignQueueMessage × Bool :=
  sendAllCampaigns (activeCampaignMessages db) 0 sendFails

/- ## PoolCoordinator allocator (src/scheduler/index.ts lines 38-152) -/

/-- In-memory `lastUsedAccounts : Map<number, number>` (accountId ↦ epoch ms),
modelled as an insertion-ordered association list, as a JS `Map` is. -/
abbrev AllocatorState := List (Nat × Nat)

/-- `Map.prototype.get`. -/
def mapGet (m : AllocatorState) (k : Nat) : Option Nat :=
  m.lookup k

/-- `Map.prototype.set`: overwrite in place when the key exists, else append. -/
def mapSet : AllocatorState → Nat → Nat → AllocatorState
  | [], k, v => [(k, v)]
  | (k', v') :: rest, k, v =>
    if k' = k then (k, v) :: rest else (k', v') :: mapSet rest k v

/-- `minTimeBetweenUses = 3600000` (line 80): one hour in milliseconds. -/
def minTimeBetweenUses : Nat := 3600000

/-- Comparison used by `ORDER BY last_used_at ASC NULLS FIRST` (line 71). -/
def lastUsedLE (a b : GmailAccount) : Bool :=
  match a.last_used_at, b.last_used_at with
  | none, _ => true
  | some _, none => false
  | some x, some y => decide (x ≤ y)

/-- Embeds the store query of lines 70-72: active accounts, ordered by
ascending `last_used_at` with NULLs first, `LIMIT limit`.  (SQL leaves the
order among ties unspecified; `mergeSort` picks one valid order.) -/
def activeAccountsQuery (db : List GmailAccount) (limit : Nat) : List GmailAccount :=
  ((db.filter (fun a => decide (a.status = AccountStatus.active))).mergeSort lastUsedLE).take limit

/-- Embeds the rate-limit filter of lines 81-90.  The JS guard is
`if (!lastUsed) return true` — `!lastUsed` is `true` both when the map has no
entry (`undefined`) and when the stored timestamp is the number `0`, so a
zero timestamp is treated as "never used".  Otherwise the account is
available when `now - lastUsed >= minTimeBetweenUses` (with truncated `Nat`
subtraction, which agrees with JS number subtraction on this comparison). -/
def accountAvailable (st : AllocatorState) (now : Nat) (a : GmailAccount) : Bool :=
  match mapGet st a.id with
  | none => true
  | some lastUsed =>
    if lastUsed = 0 then true
    else decide (now - lastUsed ≥ minTimeBetweenUses)

/-- Embeds `PoolCoordinator.selectAccounts` (lines 62-104) given the rows the
store query returned: early-return on an empty row set, rate-limit filter,
take up to `poolSize`, map to ids, then record `now` for each selected id
(`forEach`/`Map.set`, lines 97-99) before persisting and returning.  Returns
the selected ids and the updated state. -/
def selectAccounts (st : AllocatorState) (allAccounts : List GmailAccount) (now : Nat)
    (poolSize : Nat) : List Nat × AllocatorState :=
  if allAccounts.length = 0 then ([], st)
  else
    let availableAccounts := allAccounts.filter (accountAvailable st now)
    let selectedAccounts := availableAccounts.take (min poolSize availableAccounts.length)
    let accountIds := selectedAccounts.map (fun a => a.id)
    let st' := accountIds.foldl (fun s i => mapSet s i now) st
    (accountIds, st')

/-- Embeds `saveState` (lines 124-130): serialise the map into a string-keyed
record, `accountId.toString()` as the key.  (JS object key enumeration may
reorder integer-like keys; only the key ↦ value mapping is relied upon.) -/
def saveState (st : AllocatorState) : List (String × Nat) :=
  st.map (fun e => (toString e.1, e.2))

/-- `parseInt` applied to the stored keys (line 117); the keys are decimal
numerals produced by `Number.prototype.toString`. -/
def parseIntKey (s : String) : Nat :=
  (s.toNat?).getD 0

/-- Embeds `loadState` (lines 114-119): rebuild the map from the persisted
record. -/
def loadState (stored : List (String × Nat)) : AllocatorState :=
  stored.map (fun e => (parseIntKey e.1, e.2))

/-- One call to `selectAccounts` as seen by the allocator actor: the rows the
store returned, `Date.now()`, and the requested pool size. -/
structure ReserveCall where
  rows : List GmailAccount
  now : Nat
  poolSize : Nat

/-- State reached after a sequence of serialized `selectAccounts` calls. -/
def runCalls (st : AllocatorState) : List ReserveCall → AllocatorState
  | [] => st
  | c :: cs => runCalls (selectAccounts st c.rows c.now c.poolSize).2 cs

/- ## Campaign expander (src/consumer/index.ts lines 48-76) -/

/-- Embeds the four independent Bernoulli trials of lines 49-63, in source
order (move_to_inbox, open, click, reply); `r1`-`r4` are the successive
`Math.random()` draws. -/
def determineActions (s : EngagementSettings) (r1 r2 r3 r4 : ℚ) : List ActionType :=
  (if r1 < s.move_to_inbox_rate then [ActionType.move_to_inbox] else []) ++
  (if r2 < s.open_rate then [ActionType.open'] else []) ++
  (if r3 < s.click_rate then [ActionType.click] else []) ++
  (if r4 < s.reply_rate then [ActionType.reply] else [])

/-- Embeds lines 48-76 for one reserved account: one Engagement Channel
message per sampled action (the random delay only schedules delivery and is
not part of the message body). -/
def expandAccount (campaignId : Nat) (senderEmail : String) (accountId : Nat)
    (s : EngagementSettings) (r1 r2 r3 r4 : ℚ) : List EngagementQueueMessage :=
  (determineActions s r1 r2 r3 r4).map
    (fun a => { campaignId := campaignId, gmailAccountId := accountId,
                senderEmail := senderEmail, actionType := a })

/- ## Gmail utilities (src/utils/gmail.ts lines 149-171) -/

/-- Keyword list of `filterUnsubscribeLinks` (line 165). -/
def unsubscribeKeywords : List String :=
  ["unsubscribe", "opt-out", "optout", "remove", "manage-preferences"]

/-- `String.prototype.includes`: substring containment. -/
def stringIncludes (s sub : String) : Bool :=
  decide (sub.toList <:+: s.toList)

/-- `String.prototype.toLowerCase`, character-wise (core `String.toLower`
equally maps `Char.toLower` over the characters; this form reduces inside
the kernel). -/
def toLowerCase (s : String) : String :=
  (s.toList.map Char.toLower).asString

/-- The predicate of the `filter` callback in lines 167-170: the lowercased
link contains some unsubscribe keyword. -/
def isUnsubscribeLink (link : String) : Bool :=
  unsubscribeKeywords.any (fun keyword => stringIncludes (toLowerCase link) keyword)

/-- Embeds `filterUnsubscribeLinks` (lines 164-171). -/
def filterUnsubscribeLinks (links : List String) : List String :=
  links.filter (fun link => !(isUnsubscribeLink link))

/-- Case-insensitive literal match of `pattern` (already lowercase) against a
prefix of the text, for the `i` regex flag. -/
def matchesCI : List Char → List Char → Bool
  | [], _ => true
  | _ :: _, [] => false
  | p :: ps, c :: cs => (c.toLower == p) && matchesCI ps cs

/-- Scanner for the tail of a regex match `<a\s+(?:[^>]*?\s+)?href="([^"]*)"`
(extractLinks, line 150): starting just after `<a`, look for `href="`
preceded by whitespace before any `>` is crossed, and capture up to the
closing quote.  Returns the captured link and the remaining input. -/
def findHrefCapture : List Char → Bool → Option (String × List Char)
  | [], _ => none
  | c :: cs, prevWs =>
    if prevWs && matchesCI "href=\"".toList (c :: cs) then
      let afterQ := (c :: cs).drop 6
      let link := afterQ.takeWhile (fun ch => !(ch == '"'))
      let rest := afterQ.drop link.length
      match rest with
      | '"' :: rest' => some (link.asString, rest')
      | _ => none
    else if c == '>' then none
    else findHrefCapture cs c.isWhitespace

/-- Fuelled scan loop embedding the `while ((match = linkRegex.exec(...)))`
loop of lines 151-158: find each `<a` followed by whitespace, capture its
quoted `href` value, and continue after the match.  The fuel is the input
length, which bounds the number of steps. -/
def extractLinksAux : Nat → List Char → List String
  | 0, _ => []
  | _ + 1, [] => []
  | fuel + 1, c :: cs =>
    if c == '<' then
      match cs with
      | a :: d :: rest =>
        if a.toLower == 'a' && d.isWhitespace then
          match findHrefCapture (d :: rest) false with
          | some (link, rem) => link :: extractLinksAux fuel rem
          | none => extractLinksAux fuel cs
        else extractLinksAux fuel cs
      | _ => extractLinksAux fuel cs
    else extractLinksAux fuel cs

/-- Embeds `extractLinks` (lines 149-159). -/
def extractLinks (htmlContent : String) : List String :=
  extractLinksAux htmlContent.toList.length htmlContent.toList

/- ## Engagement executor (src/engagement/index.ts) -/

/-- Decrypted OAuth credential record (src/types). -/
structure OAuthCredentials where
  access_token : String
  refresh_token : String
  expiry_date : Int
deriving DecidableEq

/-- Message reference returned by `listMessages`. -/
structure MessageRef where
  id : String
deriving DecidableEq, Inhabited

/-- Innermost nested message part (`subPart` in `getHtmlContent`).  `data`
holds the part body already base64-decoded: the decoding is a bijection on
well-formed payloads and plays no role in control flow. -/
structure MessagePart2 where
  mimeType : String
  data : String
deriving DecidableEq

/-- Message part with one level of nesting, as `getHtmlContent` traverses. -/
structure MessagePart where
  mimeType : String
  data : String
  parts : List MessagePart2
deriving DecidableEq

/-- Top-level payload of a full Gmail message, with the fields the executor
reads: `mimeType`, `body.data` (decoded, see `MessagePart2`), `headers`
(name/value pairs) and optional `parts`. -/
structure MessagePayload where
  mimeType : String
  data : String
  headers : List (String × String)
  parts : Option (List MessagePart)
deriving DecidableEq

/-- Full message as returned by `getMessage`. -/
structure FullMessage where
  id : String
  threadId : String
  payload : MessagePayload
deriving DecidableEq

/-- Row of the `engagement_logs` table inserted by `logEngagement`
(lines 214-226). -/
structure LogRow where
  campaign_id : Nat
  gmail_account_id : Nat
  action_type : ActionType
  target_email_subject : Option String
  status : LogStatus
  error_message : Option String
deriving DecidableEq

/-- Observable side effects of processing one engagement message: store
writes, credential handling, and provider (Gmail API / fetch) calls. -/
inductive Effect
| insertLog (row : LogRow)
| credentialDecrypt
| credentialRefreshCall
| credentialUpdate (accountId : Nat)
| providerList
| providerGet (messageId : String)
| providerModify
| providerFetch (url : String)
| providerSend
| lastUsedUpdate (accountId : Nat)
deriving DecidableEq

/-- Transport decision for the processed message. -/
inductive Outcome
| ack
| retry
deriving DecidableEq

/-- Behaviour of all external collaborators during the processing of one
engagement message: the `gmail_accounts` table, `Date.now()` at the expiry
check, and the result of each fallible external call (`Except.error e`
models a thrown error with message `e`).  `pickMessage`/`pickLink` determine
the `Math.random()` index choices. -/
structure World where
  accounts : List GmailAccount
  now : Int
  decryptResult : Except String OAuthCredentials
  refreshResult : Except String OAuthCredentials
  listResult : Except String (List MessageRef)
  pickMessage : Nat
  getResult : Except String FullMessage
  modifyResult : Except String Unit
  fetchResult : Except String Unit
  sendResult : Except String Unit
  pickLink : Nat

/-- Embeds `logEngagement` (lines 214-226) as the effect of the inserted row;
parameter order follows the source (`status`, then `errorMessage`, then
`subject`). -/
def logEngagement (campaignId gmailAccountId : Nat) (actionType : ActionType)
    (status : LogStatus) (errorMessage : Option String) (subject : Option String) : Effect :=
  Effect.insertLog
    { campaign_id := campaignId, gmail_account_id := gmailAccountId,
      action_type := actionType, target_email_subject := subject,
      status := status, error_message := errorMessage }

/-- Embeds the subject extraction of line 118:
`headers.find(h => h.name === 'Subject')?.value || 'No Subject'` — the JS
`||` also replaces an empty subject string. -/
def getSubject (m : FullMessage) : String :=
  match m.payload.headers.find? (fun h => decide (h.1 = "Subject")) with
  | none => "No Subject"
  | some h => if h.2 = "" then "No Subject" else h.2

/-- Inner loop of `getHtmlContent` over `part.parts` (lines 188-194). -/
def findHtmlInSubParts : List MessagePart2 → Option String
  | [] => none
  | p :: ps =>
    if p.mimeType = "text/html" then some p.data
    else findHtmlInSubParts ps

/-- Outer loop of `getHtmlContent` over `payload.parts` (lines 183-196): a
part that is itself `text/html` wins, else its sub-parts are scanned; when
neither yields HTML the loop continues with the next part. -/
def findHtmlInParts : List MessagePart → Option String
  | [] => none
  | p :: ps =>
    if p.mimeType = "text/html" then some p.data
    else
      match findHtmlInSubParts p.parts with
      | some d => some d
      | none => findHtmlInParts ps

/-- Embeds `getHtmlContent` (lines 178-199). -/
def getHtmlContent (m : FullMessage) : Option String :=
  if m.payload.mimeType = "text/html" then some m.payload.data
  else
    match m.payload.parts with
    | none => none
    | some parts => findHtmlInParts parts

/-- Embeds the account lookup of lines 27-29:
`SELECT * FROM gmail_accounts WHERE id = ? AND status = 'active'`. -/
def findAccount (accounts : List GmailAccount) (gmailAccountId : Nat) : Option GmailAccount :=
  accounts.find? (fun a =>
    decide (a.id = gmailAccountId) && decide (a.status = AccountStatus.active))

/-- Embeds `performEngagementAction` (lines 94-176).  Returns the effects
performed and `Except.ok ()` when the function returns normally (including
every terminal-failure log path) or `Except.error e` when a provider call
throws and the error propagates to the caller's catch. -/
def performEngagementAction (w : World) (campaignId gmailAccountId : Nat)
    (_senderEmail : String) (actionType : ActionType) (_accessToken : String) :
    List Effect × Except String Unit :=
  match w.listResult with
  | Except.error e => ([Effect.providerList], Except.error e)
  | Except.ok messages =>
    if messages.length = 0 then
      ([Effect.providerList,
        logEngagement campaignId gmailAccountId actionType LogStatus.failed
          (some "No messages found") none],
       Except.ok ())
    else
      let randomMessage := messages.getD (w.pickMessage % messages.length) default
      let messageId := randomMessage.id
      match w.getResult with
      | Except.error e =>
        ([Effect.providerList, Effect.providerGet messageId], Except.error e)
      | Except.ok fullMessage =>
        let subject := getSubject fullMessage
        match actionType with
        | ActionType.move_to_inbox =>
          match w.modifyResult with
          | Except.error e =>
            ([Effect.providerList, Effect.providerGet messageId, Effect.providerModify],
             Except.error e)
          | Except.ok _ =>
            ([Effect.providerList, Effect.providerGet messageId, Effect.providerModify,
              logEngagement campaignId gmailAccountId actionType LogStatus.success none
                (some subject)],
             Except.ok ())
        | ActionType.open' =>
          match w.modifyResult with
          | Except.error e =>
            ([Effect.providerList, Effect.providerGet messageId, Effect.providerModify],
             Except.error e)
          | Except.ok _ =>
            ([Effect.providerList, Effect.providerGet messageId, Effect.providerModify,
              logEngagement campaignId gmailAccountId actionType LogStatus.success none
                (some subject)],
             Except.ok ())
        | ActionType.click =>
          match getHtmlContent fullMessage with
          | some htmlContent =>
            let links := extractLinks htmlContent
            let safeLinks := filterUnsubscribeLinks links
            if 0 < safeLinks.length then
              let randomLink := safeLinks.getD (w.pickLink % safeLinks.length) ""
              match w.fetchResult with
              | Except.ok _ =>
                ([Effect.providerList, Effect.providerGet messageId,
                  Effect.providerFetch randomLink,
                  logEngagement campaignId gmailAccountId actionType LogStatus.success none
                    (some subject)],
                 Except.ok ())
              | Except.error _ =>
                ([Effect.providerList, Effect.providerGet messageId,
                  Effect.providerFetch randomLink,
                  logEngagement campaignId gmailAccountId actionType LogStatus.failed
                    (some "Link click failed") (some subject)],
                 Except.ok ())
            else
              ([Effect.providerList, Effect.providerGet messageId,
                logEngagement campaignId gmailAccountId actionType LogStatus.failed
                  (some "No safe links found") (some subject)],
               Except.ok ())
          | none =>
            ([Effect.providerList, Effect.providerGet messageId,
              logEngagement campaignId gmailAccountId actionType LogStatus.failed
                (some "No HTML content") (some subject)],
             Except.ok ())
        | ActionType.reply =>
          match w.sendResult with
          | Except.error e =>
            ([Effect.providerList, Effect.providerGet messageId, Effect.providerSend],
             Except.error e)
          | Except.ok _ =>
            ([Effect.providerList, Effect.providerGet messageId, Effect.providerSend,
              logEngagement campaignId gmailAccountId actionType LogStatus.success none
                (some subject)],
             Except.ok ())

/-- Embeds lines 38-59 of the executor: decrypt the stored credentials and,
when `expiry_date < Date.now()`, refresh the token and persist the refreshed
credential back to the store. -/
def credentialPhase (w : World) (gmailAccountId : Nat) :
    List Effect × Except String OAuthCredentials :=
  match w.decryptResult with
  | Except.error e => ([Effect.credentialDecrypt], Except.error e)
  | Except.ok credentials =>
    if credentials.expiry_date < w.now then
      match w.refreshResult with
      | Except.error e =>
        ([Effect.credentialDecrypt, Effect.credentialRefreshCall], Except.error e)
      | Except.ok refreshed =>
        ([Effect.credentialDecrypt, Effect.credentialRefreshCall,
          Effect.credentialUpdate gmailAccountId],
         Except.ok refreshed)
    else ([Effect.credentialDecrypt], Except.ok credentials)

/-- The body of the per-message `try` block after the account was found
(lines 38-69): credential phase, then `performEngagementAction`. -/
def runBody (w : World) (msg : EngagementQueueMessage) : List Effect × Except String Unit :=
  let cp := credentialPhase w msg.gmailAccountId
  match cp.2 with
  | Except.error e => (cp.1, Except.error e)
  | Except.ok credentials =>
    let pa := performEngagementAction w msg.campaignId msg.gmailAccountId msg.senderEmail
      msg.actionType credentials.access_token
    (cp.1 ++ pa.1, pa.2)

/-- Embeds the per-message loop body of the executor `queue` handler
(lines 22-89): account lookup (missing-or-inactive is logged
`'Account not available'` and acknowledged, lines 31-36); a normal return
updates `last_used_at` and acknowledges (lines 71-76); a thrown error is
logged with its message and the message is retried (lines 78-89). -/
def processMessage (w : World) (msg : EngagementQueueMessage) : List Effect × Outcome :=
  match findAccount w.accounts msg.gmailAccountId with
  | none =>
    ([logEngagement msg.campaignId msg.gmailAccountId msg.actionType LogStatus.failed
        (some "Account not available") none],
     Outcome.ack)
  | some _ =>
    let body := runBody w msg
    match body.2 with
    | Except.ok _ =>
      (body.1 ++ [Effect.lastUsedUpdate msg.gmailAccountId], Outcome.ack)
    | Except.error e =>
      (body.1 ++ [logEngagement msg.campaignId msg.gmailAccountId msg.actionType
          LogStatus.failed (some e) none],
       Outcome.retry)

/- ## Concrete instances used by witnesses and counterexamples -/

/-- A never-used active pool account with id 7. -/
def acct7 : GmailAccount :=
  { id := 7, status := AccountStatus.active, last_used_at := none, oauth_credentials := "" }

/-- A never-used active pool account with id 8. -/
def acct8 : GmailAccount :=
  { id := 8, status := AccountStatus.active, last_used_at := none, oauth_credentials := "" }

/-- An active pool account with id 5, as the executor finds it. -/
def acct5 : GmailAccount :=
  { id := 5, status := AccountStatus.active, last_used_at := none, oauth_credentials := "enc" }

/-- A disabled pool account with id 5. -/
def acct5disabled : GmailAccount :=
  { id := 5, status := AccountStatus.disabled, last_used_at := none, oauth_credentials := "enc" }

/-- Two active campaigns for the scheduler scenarios. -/
def camp1 : Campaign :=
  { id := 1, sender_email := "a@example.com", pool_size := 2, status := CampaignStatus.active }

/-- Second active campaign. -/
def camp2 : Campaign :=
  { id := 2, sender_email := "b@example.com", pool_size := 2, status := CampaignStatus.active }

/-- A paused campaign the scheduler must skip. -/
def camp3paused : Campaign :=
  { id := 3, sender_email := "c@example.com", pool_size := 2, status := CampaignStatus.paused }

/-- Decrypted credentials that are not yet expired at `now = 0`. -/
def sampleCreds : OAuthCredentials :=
  { access_token := "at", refresh_token := "rt", expiry_date := 100 }

/-- Baseline world for the executor scenarios. -/
def baseWorld : World :=
  { accounts := [], now := 0,
    decryptResult := Except.ok sampleCreds,
    refreshResult := Except.error "Failed to refresh token",
    listResult := Except.ok [],
    pickMessage := 0,
    getResult := Except.error "Failed to get message",
    modifyResult := Except.ok (),
    fetchResult := Except.ok (),
    sendResult := Except.ok (),
    pickLink := 0 }

/-- An engagement message targeting account 5 with an `open` action. -/
def msg5open : EngagementQueueMessage :=
  { campaignId := 1, gmailAccountId := 5, senderEmail := "s@example.com",
    actionType := ActionType.open' }

/-- World where the targeted account exists but is disabled. -/
def worldDisabled : World :=
  { baseWorld with accounts := [acct5disabled] }

/-- World where credential decryption throws. -/
def worldDecryptFails : World :=
  { baseWorld with
    accounts := [acct5]
    decryptResult := Except.error "Failed to decrypt credentials" }

/-- World where the account is fine but no unread messages are found, a
terminal-failure path of `performEngagementAction`. -/
def worldNoMessages : World :=
  { baseWorld with accounts := [acct5] }

/-- Effects of `runBody` in `worldNoMessages`. -/
def effsNoMessages : List Effect :=
  [Effect.credentialDecrypt, Effect.providerList,
   logEngagement 1 5 ActionType.open' LogStatus.failed (some "No messages found") none]

/-- The three demo links of the unsubscribe-filtering property. -/
def demoLinks : List String :=
  ["https://x/unsubscribe", "https://x/view", "https://x/opt-out"]

/- ## Helper lemmas: decimal numeral round-trip (`toString` / `String.toNat?`) -/

/-- Digit characters produced by `Nat.digitChar` on digits are decimal digits. -/
theorem digitChar_isDigit (d : Nat) (h : d < 10) : (Nat.digitChar d).isDigit = true := by
  interval_cases d <;> decide

/-- Decoding a digit character undoes `Nat.digitChar`. -/
theorem digitChar_decode (d : Nat) (h : d < 10) :
    (Nat.digitChar d).toNat - '0'.toNat = d := by
  interval_cases d <;> decide

/-- `Nat.toDigitsCore` with sufficient fuel prepends the digits of `n` to the
accumulator. -/
theorem toDigitsCore_eq_append (n : Nat) :
    ∀ (fuel : Nat) (ds : List Char), n < fuel →
      Nat.toDigitsCore 10 fuel n ds = Nat.toDigitsCore 10 (n + 1) n [] ++ ds := by
  induction n using Nat.strong_induction_on with
  | _ n ih =>
    intro fuel ds hf
    match fuel, hf with
    | f + 1, hf =>
      by_cases h0 : n / 10 = 0
      · simp [Nat.toDigitsCore, h0]
      · have hn : 0 < n := by
          rcases Nat.eq_zero_or_pos n with h | h
          · exfalso; apply h0; simp [h]
          · exact h
        have hdiv : n / 10 < n := Nat.div_lt_self hn (by omega)
        simp only [Nat.toDigitsCore, h0, if_false, ite_false]
        rw [ih (n / 10) hdiv f _ (by omega), ih (n / 10) hdiv n _ hdiv]
        simp

/-- One-step recurrence for `Nat.toDigits 10`. -/
theorem toDigits_recurrence (n : Nat) :
    Nat.toDigits 10 n =
      if n < 10 then [Nat.digitChar n]
      else Nat.toDigits 10 (n / 10) ++ [Nat.digitChar (n % 10)] := by
  by_cases h : n < 10
  · have h0 : n / 10 = 0 := by omega
    have hmod : n % 10 = n := Nat.mod_eq_of_lt h
    simp [Nat.toDigits, Nat.toDigitsCore, h0, hmod, h]
  · have h0 : ¬ n / 10 = 0 := by omega
    have hdiv : n / 10 < n := Nat.div_lt_self (by omega) (by omega)
    simp only [Nat.toDigits, Nat.toDigitsCore, h0, if_false, ite_false, h]
    exact toDigitsCore_eq_append (n / 10) n _ hdiv

/-- Every character of a decimal numeral is a digit. -/
theorem toDigits_all_isDigit (n : Nat) : ∀ c ∈ Nat.toDigits 10 n, c.isDigit = true := by
  induction n using Nat.strong_induction_on with
  | _ n ih =>
    rw [toDigits_recurrence]
    by_cases h : n < 10
    · simp only [h, if_true, ite_true, List.mem_singleton]
      rintro c rfl
      exact digitChar_isDigit n h
    · have hdiv : n / 10 < n := Nat.div_lt_self (by omega) (by omega)
      simp only [h, if_false, ite_false]
      intro c hc
      rcases List.mem_append.mp hc with hc | hc
      · exact ih (n / 10) hdiv c hc
      · rw [List.mem_singleton.mp hc]
        exact digitChar_isDigit (n % 10) (Nat.mod_lt n (by omega))

/-- Decimal numerals are never empty. -/
theorem toDigits_ne_nil (n : Nat) : Nat.toDigits 10 n ≠ [] := by
  rw [toDigits_recurrence]
  by_cases h : n < 10 <;> simp [h]

/-- Folding the decimal decoding step over the digits of `n` recovers `n`. -/
theorem foldl_toDigits (n : Nat) : ∀ acc : Nat,
    (Nat.toDigits 10 n).foldl (fun m c => m * 10 + (c.toNat - '0'.toNat)) acc
      = acc * 10 ^ (Nat.toDigits 10 n).length + n := by
  induction n using Nat.strong_induction_on with
  | _ n ih =>
    intro acc
    rw [toDigits_recurrence]
    by_cases h : n < 10
    · simp only [h, if_true, ite_true, List.foldl_cons, List.foldl_nil, List.length_singleton,
        pow_one]
      rw [digitChar_decode n h]
    · have hdiv : n / 10 < n := Nat.div_lt_self (by omega) (by omega)
      simp only [h, if_false, ite_false, List.foldl_append, List.foldl_cons, List.foldl_nil,
        List.length_append, List.length_singleton]
      rw [ih (n / 10) hdiv acc, digitChar_decode (n % 10) (Nat.mod_lt n (by omega))]
      have hpow : 10 ^ ((Nat.toDigits 10 (n / 10)).length + 1)
          = 10 ^ (Nat.toDigits 10 (n / 10)).length * 10 := pow_succ 10 _
      rw [hpow]
      have hmul : acc * (10 ^ (Nat.toDigits 10 (n / 10)).length * 10)
          = acc * 10 ^ (Nat.toDigits 10 (n / 10)).length * 10 := by ring
      rw [hmul]
      have hdm := Nat.div_add_mod n 10
      generalize acc * 10 ^ (Nat.toDigits 10 (n / 10)).length = B
      omega

/-- Printing a natural number and parsing it back is the identity. -/
theorem toNat?_toString (n : Nat) : (toString n).toNat? = some n := by
  have hrepr : toString n = (Nat.toDigits 10 n).asString := rfl
  have hdata : ((Nat.toDigits 10 n).asString).data = Nat.toDigits 10 n := rfl
  have hempty : ((Nat.toDigits 10 n).asString).isEmpty = false := by
    cases he : ((Nat.toDigits 10 n).asString).isEmpty
    · rfl
    · exfalso
      apply toDigits_ne_nil n
      have hs := (String.isEmpty_iff _).mp he
      calc Nat.toDigits 10 n = ((Nat.toDigits 10 n).asString).data := rfl
        _ = ("" : String).data := by rw [hs]
        _ = [] := rfl
  have hall : ((Nat.toDigits 10 n).asString).all (fun c => c.isDigit) = true := by
    rw [String.all_eq, hdata, List.all_eq_true]
    exact toDigits_all_isDigit n
  rw [hrepr]
  simp only [String.toNat?, String.isNat, hempty, hall, Bool.not_false, Bool.and_self, if_true,
    ite_true]
  rw [String.foldl_eq, hdata, foldl_toDigits n 0]
  simp

/-- `loadState` undoes `saveState` (lines 114-130): the persisted snapshot
hydrates back to the in-memory map. -/
theorem loadState_saveState (st : AllocatorState) : loadState (saveState st) = st := by
  induction st with
  | nil => rfl
  | cons e tl ih =>
    simp only [saveState, loadState, List.map_cons] at *
    rw [ih]
    simp [parseIntKey, toNat?_toString]

/- ## Helper lemmas: the allocator state map -/

/-- Lookup after `Map.set`. -/
theorem mapGet_mapSet (s : AllocatorState) (k v j : Nat) :
    mapGet (mapSet s k v) j = if j = k then some v else mapGet s j := by
  induction s with
  | nil =>
    by_cases h : j = k
    · have hb : (j == k) = true := beq_iff_eq.mpr h
      simp [mapSet, mapGet, List.lookup, hb, h]
    · have hb : (j == k) = false := beq_eq_false_iff_ne.mpr h
      simp [mapSet, mapGet, List.lookup, hb, h]
  | cons hd tl ih =>
    obtain ⟨k', v'⟩ := hd
    by_cases h : k' = k
    · subst h
      by_cases hj : j = k'
      · have hb : (j == k') = true := beq_iff_eq.mpr hj
        simp [mapSet, mapGet, List.lookup, hb, hj]
      · have hb : (j == k') = false := beq_eq_false_iff_ne.mpr hj
        simp [mapSet, mapGet, List.lookup, hb, hj]
    · by_cases hj : j = k'
      · subst hj
        have hb : (j == j) = true := beq_iff_eq.mpr rfl
        simp [mapSet, if_neg h, mapGet, List.lookup, hb, h]
      · have hb : (j == k') = false := beq_eq_false_iff_ne.mpr hj
        have hthis := ih
        simp only [mapGet, List.lookup] at hthis
        simp [mapSet, if_neg h, mapGet, List.lookup, hb, hthis]

/-- Lookup after recording `now` for every selected id. -/
theorem mapGet_foldl_set (l : List Nat) (st : AllocatorState) (v a : Nat) :
    mapGet (l.foldl (fun s i => mapSet s i v) st) a
      = if a ∈ l then some v else mapGet st a := by
  induction l generalizing st with
  | nil => simp
  | cons i tl ih =>
    simp only [List.foldl_cons]
    rw [ih]
    by_cases ht : a ∈ tl
    · simp [ht]
    · by_cases hi : a = i
      · subst hi
        simp [ht, mapGet_mapSet]
      · simp [ht, hi, mapGet_mapSet]

/- ## Helper lemmas: `selectAccounts` -/

/-- Every id returned by `selectAccounts` comes from a row that passed the
rate-limit filter. -/
theorem selectAccounts_mem_rows (st : AllocatorState) (rows : List GmailAccount) (now p a : Nat)
    (h : a ∈ (selectAccounts st rows now p).1) :
    ∃ acc, acc ∈ rows ∧ acc.id = a ∧ accountAvailable st now acc = true := by
  by_cases he : rows.length = 0
  · simp [selectAccounts, he] at h
  · simp only [selectAccounts, he, if_false, ite_false] at h
    rw [List.mem_map] at h
    obtain ⟨acc, hacc, hid⟩ := h
    have h1 : acc ∈ rows.filter (accountAvailable st now) :=
      (List.take_sublist _ _).subset hacc
    rw [List.mem_filter] at h1
    exact ⟨acc, h1.1, hid, h1.2⟩

/-- Every returned id has its state timestamp set to `now` (lines 97-99). -/
theorem selectAccounts_sets_now (st : AllocatorState) (rows : List GmailAccount) (now p a : Nat)
    (h : a ∈ (selectAccounts st rows now p).1) :
    mapGet (selectAccounts st rows now p).2 a = some now := by
  by_cases he : rows.length = 0
  · simp [selectAccounts, he] at h
  · simp only [selectAccounts, he, if_false, ite_false] at h ⊢
    rw [mapGet_foldl_set, if_pos h]

/-- Ids that are not returned keep their previous state entry. -/
theorem selectAccounts_state_other (st : AllocatorState) (rows : List GmailAccount)
    (now p a : Nat) (h : a ∉ (selectAccounts st rows now p).1) :
    mapGet (selectAccounts st rows now p).2 a = mapGet st a := by
  by_cases he : rows.length = 0
  · simp [selectAccounts, he]
  · simp only [selectAccounts, he, if_false, ite_false] at h ⊢
    rw [mapGet_foldl_set, if_neg h]

/-- The reuse interval is positive. -/
theorem minTimeBetweenUses_pos : 0 < minTimeBetweenUses := by decide

/-- An account whose (nonzero) state timestamp is within the reuse window of
`t2` is never returned at `t2`. -/
theorem selectAccounts_blocks_recent (st : AllocatorState) (rows : List GmailAccount)
    (t2 p a v : Nat) (hv : mapGet st a = some v) (hpos : 0 < v)
    (hlt : t2 < v + minTimeBetweenUses) :
    a ∉ (selectAccounts st rows t2 p).1 := by
  intro hmem
  obtain ⟨acc, _, hid, havail⟩ := selectAccounts_mem_rows st rows t2 p a hmem
  simp only [accountAvailable, hid, hv] at havail
  have hne : v ≠ 0 := by omega
  simp [hne] at havail
  have hm := minTimeBetweenUses_pos
  omega

/-- A positive state timestamp never decreases across a `selectAccounts` call,
and stays positive. -/
theorem selectAccounts_mono (st : AllocatorState) (rows : List GmailAccount) (now p a v : Nat)
    (hv : mapGet st a = some v) (hpos : 0 < v) :
    ∃ v', mapGet (selectAccounts st rows now p).2 a = some v' ∧ v ≤ v' ∧ 0 < v' := by
  by_cases hmem : a ∈ (selectAccounts st rows now p).1
  · obtain ⟨acc, _, hid, havail⟩ := selectAccounts_mem_rows st rows now p a hmem
    simp only [accountAvailable, hid, hv] at havail
    have hne : v ≠ 0 := by omega
    simp [hne] at havail
    have hm := minTimeBetweenUses_pos
    exact ⟨now, selectAccounts_sets_now st rows now p a hmem, by omega, by omega⟩
  · rw [selectAccounts_state_other st rows now p a hmem, hv]
    exact ⟨v, rfl, le_refl v, hpos⟩

/-- A positive state timestamp never decreases across any sequence of
serialized calls. -/
theorem runCalls_mono (cs : List ReserveCall) : ∀ (st : AllocatorState) (a v : Nat),
    mapGet st a = some v → 0 < v →
    ∃ v', mapGet (runCalls st cs) a = some v' ∧ v ≤ v' ∧ 0 < v' := by
  induction cs with
  | nil =>
    intro st a v hv hp
    exact ⟨v, hv, le_refl v, hp⟩
  | cons c cs ih =>
    intro st a v hv hp
    obtain ⟨v1, hv1, hle1, hp1⟩ := selectAccounts_mono st c.rows c.now c.poolSize a v hv hp
    obtain ⟨v2, hv2, hle2, hp2⟩ := ih _ a v1 hv1 hp1
    exact ⟨v2, by simpa [runCalls] using hv2, le_trans hle1 hle2, hp2⟩

/- ## Claims about the allocator -/

/-- Claim C1, amended: for a campaign's allocator instance, an account
returned by a reserve call at a positive time `t1` has its state timestamp
set to `t1` before the call returns, and is not returned by any later
reserve call at time `t2` with `t2 - t1 < minTimeBetweenUses`, whatever
calls happen in between.  (The positivity proviso is forced by the JS
`!lastUsed` guard, which treats a stored timestamp `0` as never-used; see
the counterexample.) -/
theorem selectAccounts_no_double_allocation
    (st : AllocatorState) (rows1 : List GmailAccount) (t1 p1 a : Nat)
    (mid : List ReserveCall) (rows2 : List GmailAccount) (t2 p2 : Nat)
    (hpos : 0 < t1) (hgap : t2 - t1 < minTimeBetweenUses)
    (ha : a ∈ (selectAccounts st rows1 t1 p1).1) :
    mapGet (selectAccounts st rows1 t1 p1).2 a = some t1 ∧
    a ∉ (selectAccounts (runCalls (selectAccounts st rows1 t1 p1).2 mid) rows2 t2 p2).1 := by
  have h1 := selectAccounts_sets_now st rows1 t1 p1 a ha
  obtain ⟨v', hv', hle, hp⟩ := runCalls_mono mid _ a t1 h1 hpos
  refine ⟨h1, selectAccounts_blocks_recent _ rows2 t2 p2 a v' hv' hp ?_⟩
  have hm := minTimeBetweenUses_pos
  omega

/-- Witness for C1: account 7 reserved at time 5 is refused at time 6. -/
theorem selectAccounts_no_double_allocation_witness :
    mapGet (selectAccounts [] [acct7] 5 1).2 7 = some 5 ∧
    7 ∉ (selectAccounts (runCalls (selectAccounts [] [acct7] 5 1).2 []) [acct7] 6 1).1 :=
  selectAccounts_no_double_allocation [] [acct7] 5 1 7 [] [acct7] 6 1
    (by decide) (by decide) (by decide)

/-- Counterexample to C1 as stated: a reserve call at time 0 stores the
timestamp `0`, which the JS `!lastUsed` guard treats as never-used, so the
same account is returned again one millisecond later — two returns within
`minTimeBetweenUses`. -/
theorem selectAccounts_zero_time_cex :
    (selectAccounts [] [acct7] 0 1).1 = [7] ∧
    (selectAccounts (selectAccounts [] [acct7] 0 1).2 [acct7] 1 1).1 = [7] ∧
    1 - 0 < minTimeBetweenUses :=
  ⟨by decide, by decide, by decide⟩

/-- Claim C2: a reserve call returns at most `poolSize` ids, and every
returned id belongs to an account that is `active` in the store at query
time. -/
theorem selectAccounts_reservation_upper_bound
    (db : List GmailAccount) (st : AllocatorState) (now poolSize : Nat) :
    (selectAccounts st (activeAccountsQuery db (poolSize * 2)) now poolSize).1.length ≤ poolSize ∧
    ∀ i ∈ (selectAccounts st (activeAccountsQuery db (poolSize * 2)) now poolSize).1,
      ∃ acc, acc ∈ db ∧ acc.status = AccountStatus.active ∧ acc.id = i := by
  constructor
  · by_cases he : (activeAccountsQuery db (poolSize * 2)).length = 0
    · simp [selectAccounts, he]
    · simp only [selectAccounts, he, if_false, ite_false]
      rw [List.length_map, List.length_take]
      exact le_trans (min_le_left _ _) (min_le_left _ _)
  · intro i hi
    obtain ⟨acc, hmem, hid, _⟩ := selectAccounts_mem_rows st _ now poolSize i hi
    simp only [activeAccountsQuery] at hmem
    have h2 := (List.take_sublist _ _).subset hmem
    rw [List.mem_mergeSort, List.mem_filter] at h2
    exact ⟨acc, h2.1, of_decide_eq_true h2.2, hid⟩

/-- Witness for C2 at a one-account store. -/
theorem selectAccounts_reservation_upper_bound_witness :
    (selectAccounts [] (activeAccountsQuery [acct7] 2) 5 1).1.length ≤ 1 ∧
    ∃ acc, acc ∈ [acct7] ∧ acc.status = AccountStatus.active ∧ acc.id = 7 :=
  ⟨(selectAccounts_reservation_upper_bound [acct7] [] 5 1).1,
   (selectAccounts_reservation_upper_bound [acct7] [] 5 1).2 7 (by
    have hq : activeAccountsQuery [acct7] (1 * 2) = [acct7] := by
      simp [activeAccountsQuery, acct7, List.mergeSort_singleton]
    rw [hq]
    decide)⟩

/-- Claim C3, amended: the persisted snapshot hydrates back to the in-memory
map, and a fresh instance hydrating a snapshot that holds account 7 with a
nonzero timestamp `T` refuses to return account 7 before
`T + minTimeBetweenUses`.  (A snapshot timestamp of exactly `0` is treated
as never-used by the JS `!lastUsed` guard and is not protected; see the
counterexample.) -/
theorem allocator_restart_refuses_reuse
    (st : AllocatorState) (T : Nat) (rows : List GmailAccount) (now p : Nat)
    (hT : mapGet st 7 = some T) (hpos : 0 < T) (hnow : now < T + minTimeBetweenUses) :
    (∀ k, mapGet (loadState (saveState st)) k = mapGet st k) ∧
    7 ∉ (selectAccounts (loadState (saveState st)) rows now p).1 := by
  have hround : loadState (saveState st) = st := loadState_saveState st
  constructor
  · intro k
    rw [hround]
  · rw [hround]
    exact selectAccounts_blocks_recent st rows now p 7 T hT hpos hnow

/-- Witness for C3: snapshot with account 7 reserved at time 5, hydrated and
queried at time 6. -/
theorem allocator_restart_refuses_reuse_witness :
    mapGet (loadState (saveState [(7, 5)])) 7 = mapGet [(7, 5)] 7 ∧
    7 ∉ (selectAccounts (loadState (saveState [(7, 5)])) [acct7] 6 1).1 :=
  ⟨(allocator_restart_refuses_reuse [(7, 5)] 5 [acct7] 6 1 (by decide) (by decide)
      (by decide)).1 7,
   (allocator_restart_refuses_reuse [(7, 5)] 5 [acct7] 6 1 (by decide) (by decide)
      (by decide)).2⟩

/-- Counterexample to C3 as stated: a hydrated snapshot holding account 7
with timestamp `T = 0` does not protect it — a reserve call at time 1, well
before `T + minTimeBetweenUses`, returns account 7. -/
theorem allocator_restart_zero_timestamp_cex :
    (selectAccounts (loadState (saveState [(7, 0)])) [acct7] 1 1).1 = [7] ∧
    1 < 0 + minTimeBetweenUses := by
  constructor
  · rw [loadState_saveState]
    decide
  · decide

/-- Claim C10: within a single reserve call the returned ids are pairwise
distinct, provided the queried rows carry pairwise distinct ids. -/
theorem selectAccounts_nodup
    (st : AllocatorState) (rows : List GmailAccount) (now p : Nat)
    (h : (rows.map (fun a => a.id)).Nodup) :
    (selectAccounts st rows now p).1.Nodup := by
  by_cases he : rows.length = 0
  · simp [selectAccounts, he]
  · simp only [selectAccounts, he, if_false, ite_false]
    have hsub : ((rows.filter (accountAvailable st now)).take
        (min p (rows.filter (accountAvailable st now)).length)).Sublist rows :=
      (List.take_sublist _ _).trans (List.filter_sublist _)
    exact List.Nodup.sublist (List.Sublist.map _ hsub) h

/-- Witness for C10 with two distinct accounts. -/
theorem selectAccounts_nodup_witness :
    ([acct7, acct8].map (fun a => a.id)).Nodup ∧
    (selectAccounts [] [acct7, acct8] 5 2).1.Nodup :=
  ⟨by decide, selectAccounts_nodup [] [acct7, acct8] 5 2 (by decide)⟩

/- ## Claims about the scheduler -/

/-- The messages actually published by the send loop form a prefix of the
intended message list. -/
theorem sendAllCampaigns_published_initial_segment (msgs : List CampaignQueueMessage) :
    ∀ (i : Nat) (f : Nat → Bool), (sendAllCampaigns msgs i f).1 <+: msgs := by
  induction msgs with
  | nil =>
    intro i f
    exact ⟨[], rfl⟩
  | cons m rest ih =>
    intro i f
    by_cases hf : f i
    · simp only [sendAllCampaigns, hf, if_true, ite_true]
      exact ⟨m :: rest, rfl⟩
    · simp only [sendAllCampaigns, hf, if_false, ite_false]
      obtain ⟨t, ht⟩ := ih (i + 1) f
      exact ⟨t, by simp [ht]⟩

/-- When no send throws, the loop publishes every message and completes. -/
theorem sendAllCampaigns_all_ok (msgs : List CampaignQueueMessage) :
    ∀ (i : Nat) (f : Nat → Bool), (∀ j, f j = false) →
      sendAllCampaigns msgs i f = (msgs, true) := by
  induction msgs with
  | nil =>
    intro i f _
    rfl
  | cons m rest ih =>
    intro i f hf
    simp only [sendAllCampaigns, hf i, if_false, ite_false]
    rw [ih (i + 1) f hf]
    simp

/-- Claim C4, amended: a run on which no send throws publishes exactly one
Campaign Channel message (holding only the campaign identity) per active
campaign; a run that fails at the `k`-th send leaves exactly the first `k`
messages published — a prefix of the active set, so the published set can be
a proper non-empty subset and the all-or-none guarantee holds only for runs
failing before the first send (such as a failing listing query). -/
theorem scheduled_one_message_per_active_campaign (db : List Campaign) (sendFails : Nat → Bool) :
    (scheduled db sendFails).1 <+: activeCampaignMessages db ∧
    ((∀ j, sendFails j = false) → scheduled db sendFails = (activeCampaignMessages db, true)) := by
  constructor
  · exact sendAllCampaigns_published_initial_segment _ 0 sendFails
  · intro hok
    exact sendAllCampaigns_all_ok _ 0 sendFails hok

/-- Witness for C4: a failure-free run over two active campaigns and one
paused campaign publishes exactly the two active identities. -/
theorem scheduled_one_message_per_active_campaign_witness :
    scheduled [camp1, camp3paused, camp2] (fun _ => false)
      = (activeCampaignMessages [camp1, camp3paused, camp2], true) ∧
    activeCampaignMessages [camp1, camp3paused, camp2] = [⟨1⟩, ⟨2⟩] :=
  ⟨(scheduled_one_message_per_active_campaign [camp1, camp3paused, camp2]
      (fun _ => false)).2 (fun _ => rfl),
   by decide⟩

/-- Counterexample to C4 as stated: when the second send throws, the run has
already published the first message — a proper non-empty subset of the two
active campaigns is left published. -/
theorem scheduled_mid_run_failure_cex :
    scheduled [camp1, camp2] (fun j => decide (j = 1)) = ([⟨1⟩], false) ∧
    activeCampaignMessages [camp1, camp2] = [⟨1⟩, ⟨2⟩] ∧
    ([⟨1⟩] : List CampaignQueueMessage) ≠ [] ∧
    ([⟨1⟩] : List CampaignQueueMessage) ≠ [⟨1⟩, ⟨2⟩] :=
  ⟨by decide, by decide, by decide, by decide⟩

/- ## Claim about the campaign expander -/

/-- Claim C5: with `open_rate = 1.0` and the three other rates `0.0`, every
reserved account yields exactly one `open` engagement task and nothing else,
for every sequence of random draws in `[0, 1)`. -/
theorem expander_open_only (campaignId accountId : Nat) (senderEmail : String)
    (r1 r2 r3 r4 : ℚ)
    (h1 : 0 ≤ r1 ∧ r1 < 1) (h2 : 0 ≤ r2 ∧ r2 < 1)
    (h3 : 0 ≤ r3 ∧ r3 < 1) (h4 : 0 ≤ r4 ∧ r4 < 1) :
    expandAccount campaignId senderEmail accountId
      { open_rate := 1, click_rate := 0, reply_rate := 0, move_to_inbox_rate := 0 }
      r1 r2 r3 r4
      = [{ campaignId := campaignId, gmailAccountId := accountId,
           senderEmail := senderEmail, actionType := ActionType.open' }] := by
  have hn1 : ¬ r1 < (0 : ℚ) := not_lt.mpr h1.1
  have hn3 : ¬ r3 < (0 : ℚ) := not_lt.mpr h3.1
  have hn4 : ¬ r4 < (0 : ℚ) := not_lt.mpr h4.1
  simp [expandAccount, determineActions, hn1, hn3, hn4, h2.2]

/-- Witness for C5 with all four draws equal to one half. -/
theorem expander_open_only_witness :
    (0 ≤ (1 : ℚ)/2 ∧ (1 : ℚ)/2 < 1) ∧
    expandAccount 1 "s@example.com" 5
      { open_rate := 1, click_rate := 0, reply_rate := 0, move_to_inbox_rate := 0 }
      (1/2) (1/2) (1/2) (1/2)
      = [{ campaignId := 1, gmailAccountId := 5, senderEmail := "s@example.com",
           actionType := ActionType.open' }] :=
  ⟨⟨by norm_num, by norm_num⟩,
   expander_open_only 1 5 "s@example.com" (1/2) (1/2) (1/2) (1/2)
     ⟨by norm_num, by norm_num⟩ ⟨by norm_num, by norm_num⟩
     ⟨by norm_num, by norm_num⟩ ⟨by norm_num, by norm_num⟩⟩

/- ## Claim about unsubscribe-link filtering -/

/-- Claim C6: on the three demo links the filter keeps exactly
`"https://x/view"`; in general it removes exactly the links containing
(case-insensitively) an unsubscribe keyword and preserves the order of the
rest. -/
theorem filterUnsubscribeLinks_spec :
    filterUnsubscribeLinks demoLinks = ["https://x/view"] ∧
    ∀ links : List String,
      (filterUnsubscribeLinks links).Sublist links ∧
      ∀ l : String, l ∈ filterUnsubscribeLinks links ↔
        l ∈ links ∧ isUnsubscribeLink l = false := by
  refine ⟨by decide, fun links => ⟨List.filter_sublist _, fun l => ?_⟩⟩
  simp [filterUnsubscribeLinks, List.mem_filter]

/- ## Claims about the engagement executor -/

/-- Claim C7, amended: when the pool account is missing or not `active`, the
executor writes exactly one failed log row whose reason is the source's
literal `"Account not available"` (capital A — the claim quotes
`"account not available"`), acknowledges the message, and performs no other
side effect: no provider call, no credential access, no `last_used_at`
update. -/
theorem executor_account_unavailable (w : World) (msg : EngagementQueueMessage)
    (h : findAccount w.accounts msg.gmailAccountId = none) :
    processMessage w msg =
      ([Effect.insertLog
          { campaign_id := msg.campaignId, gmail_account_id := msg.gmailAccountId,
            action_type := msg.actionType, target_email_subject := none,
            status := LogStatus.failed, error_message := some "Account not available" }],
       Outcome.ack) := by
  simp [processMessage, h, logEngagement]

/-- Witness for C7: account 5 exists but is disabled. -/
theorem executor_account_unavailable_witness :
    findAccount worldDisabled.accounts msg5open.gmailAccountId = none ∧
    processMessage worldDisabled msg5open =
      ([Effect.insertLog
          { campaign_id := 1, gmail_account_id := 5, action_type := ActionType.open',
            target_email_subject := none, status := LogStatus.failed,
            error_message := some "Account not available" }],
       Outcome.ack) :=
  ⟨rfl, executor_account_unavailable worldDisabled msg5open rfl⟩

/-- Counterexample to C7 as stated: the single log row carries the reason
string `"Account not available"`, which differs from the claim's quoted
`"account not available"`. -/
theorem executor_account_reason_cex :
    processMessage worldDisabled msg5open =
      ([Effect.insertLog
          { campaign_id := 1, gmail_account_id := 5, action_type := ActionType.open',
            target_email_subject := none, status := LogStatus.failed,
            error_message := some "Account not available" }],
       Outcome.ack) ∧
    some "Account not available" ≠ some "account not available" :=
  ⟨rfl, by decide⟩

/-- Claim C8: on an unexpected (retryable) error the executor appends exactly
one failed log row carrying the error text and only then signals retry; the
message is not acknowledged, so each retried attempt produces its own log
row. -/
theorem executor_error_logged_then_retry (w : World) (msg : EngagementQueueMessage)
    (acc : GmailAccount) (effs : List Effect) (e : String)
    (hacc : findAccount w.accounts msg.gmailAccountId = some acc)
    (hbody : runBody w msg = (effs, Except.error e)) :
    processMessage w msg =
      (effs ++ [Effect.insertLog
          { campaign_id := msg.campaignId, gmail_account_id := msg.gmailAccountId,
            action_type := msg.actionType, target_email_subject := none,
            status := LogStatus.failed, error_message := some e }],
       Outcome.retry) := by
  simp [processMessage, hacc, hbody, logEngagement]

/-- Witness for C8: credential decryption throws. -/
theorem executor_error_logged_then_retry_witness :
    findAccount worldDecryptFails.accounts msg5open.gmailAccountId = some acct5 ∧
    runBody worldDecryptFails msg5open
      = ([Effect.credentialDecrypt], Except.error "Failed to decrypt credentials") ∧
    processMessage worldDecryptFails msg5open =
      ([Effect.credentialDecrypt,
        Effect.insertLog
          { campaign_id := 1, gmail_account_id := 5, action_type := ActionType.open',
            target_email_subject := none, status := LogStatus.failed,
            error_message := some "Failed to decrypt credentials" }],
       Outcome.retry) :=
  ⟨rfl, rfl,
   executor_error_logged_then_retry worldDecryptFails msg5open acct5
     [Effect.credentialDecrypt] "Failed to decrypt credentials" rfl rfl⟩

/-- Claim C9: whenever `performEngagementAction` (together with the
credential phase) returns without throwing — including every terminal
failure log path — the executor updates the account's `last_used_at` and
acknowledges; the bump is not conditioned on a success outcome. -/
theorem executor_bumps_last_used_on_return (w : World) (msg : EngagementQueueMessage)
    (acc : GmailAccount) (effs : List Effect)
    (hacc : findAccount w.accounts msg.gmailAccountId = some acc)
    (hbody : runBody w msg = (effs, Except.ok ())) :
    processMessage w msg = (effs ++ [Effect.lastUsedUpdate msg.gmailAccountId], Outcome.ack) := by
  simp [processMessage, hacc, hbody]

/-- Witness for C9 on the terminal-failure path "No messages found": the
failed log is followed by the `last_used_at` bump and an acknowledge. -/
theorem executor_bumps_last_used_on_return_witness :
    findAccount worldNoMessages.accounts msg5open.gmailAccountId = some acct5 ∧
    runBody worldNoMessages msg5open = (effsNoMessages, Except.ok ()) ∧
    processMessage worldNoMessages msg5open
      = (effsNoMessages ++ [Effect.lastUsedUpdate 5], Outcome.ack) :=
  ⟨rfl, rfl,
   executor_bumps_last_used_on_return worldNoMessages msg5open acct5 effsNoMessages rfl rfl⟩
